import Mathlib

/-!
Verification of the network builder of the p2p networking layer
(`crates/net/network/src/builder.rs`): a staged construction helper that
creates the `TransactionsManager` and the `EthRequestHandler`, wires their
mpsc channels into the `NetworkManager`, and hands back the assembled set.

The builder file is embedded directly from the source. The surrounding
types it wires together (`NetworkManager`, `NetworkHandle`, `PeersHandle`,
`TransactionsManager`, `EthRequestHandler`) and the async runtime's mpsc
channels live outside the embedded source, so they are modelled from the
specification: channels are identified by a fresh allocation id threaded
explicitly through every allocation, handle cloning is identity on the
shared reference, and the manager's two consumer routes are the two
installable sender slots.
-/

/-- Capacity discipline of an mpsc channel: `mpsc::channel(cap)` yields a
bounded channel of capacity `cap`, `mpsc::unbounded_channel()` an unbounded
one. -/
inductive ChannelCapacity where
  | bounded (cap : Nat)
  | unbounded

/-- Modelled from the spec: a channel created by the async runtime, identified
by its allocation id and carrying its capacity discipline. -/
structure Channel where
  id : Nat
  capacity : ChannelCapacity

/-- The producer end of a channel; installed into the network manager. -/
structure Sender where
  chan : Channel

/-- The consumer end of a channel; owned by the consumer task. -/
structure Receiver where
  chan : Channel

namespace mpsc

/-- Modelled from the spec: `tokio::sync::mpsc::channel(cap)` allocates a
fresh bounded channel of capacity `cap` and returns its sender/receiver pair.
Allocation is made explicit by threading a fresh-id counter. -/
def channel (cap : Nat) (fresh : Nat) : (Sender × Receiver) × Nat :=
  ((⟨⟨fresh, ChannelCapacity.bounded cap⟩⟩, ⟨⟨fresh, ChannelCapacity.bounded cap⟩⟩), fresh + 1)

/-- Modelled from the spec: `tokio::sync::mpsc::unbounded_channel()` allocates
a fresh unbounded channel and returns its sender/receiver pair. -/
def unbounded_channel (fresh : Nat) : (Sender × Receiver) × Nat :=
  ((⟨⟨fresh, ChannelCapacity.unbounded⟩⟩, ⟨⟨fresh, ChannelCapacity.unbounded⟩⟩), fresh + 1)

end mpsc

/-- Modelled from the spec: "a shared, cloneable accessor to the live peer
set"; a clone shares the same underlying peer set, so a handle is identified
by the peer set it references and cloning is identity on the reference. -/
structure PeersHandle where
  id : Nat

/-- Cloning a peers handle shares the same underlying peer set. -/
def PeersHandle.clone (p : PeersHandle) : PeersHandle := p

/-- Modelled from the spec: "a lightweight, shareable reference to the
Network Manager's control surface"; identified by the manager it references
together with the shared peers handle. -/
structure NetworkHandle where
  managerId : Nat
  peers : PeersHandle

/-- Cloning a network handle is "cheap and unlimited; all clones observe the
same underlying manager state": identity on the reference. -/
def NetworkHandle.clone (h : NetworkHandle) : NetworkHandle := h

/-- Accessor for the shared peers handle carried by the network handle. -/
def NetworkHandle.peers_handle (h : NetworkHandle) : PeersHandle := h.peers

/-- Modelled from the spec: the Network Manager owns "a routing table from
message-type to consumer channel sender, and the shared Peers Handle"; the
two routes are the transactions route and the eth-request route, each holding
at most one installed sender. The call counters record how many times each
installer has run. `C` is the client type parameter of `NetworkManager<C>`,
carried as a phantom. -/
structure NetworkManager (C : Type) where
  handle : NetworkHandle
  toTransactions : Option Sender
  toEthRequestHandler : Option Sender
  setTransactionsCalls : Nat
  setEthRequestHandlerCalls : Nat

/-- Modelled from the spec: `set_transactions(sender)` "installs the one
outbound route for transaction-related inbound messages. Overwrites any
previous route." -/
def NetworkManager.set_transactions {C : Type} (m : NetworkManager C) (s : Sender) :
    NetworkManager C :=
  { m with toTransactions := some s, setTransactionsCalls := m.setTransactionsCalls + 1 }

/-- Modelled from the spec: `set_eth_request_handler(sender)` "installs the
one outbound route for inbound data-request messages. Same overwrite
semantics." -/
def NetworkManager.set_eth_request_handler {C : Type} (m : NetworkManager C) (s : Sender) :
    NetworkManager C :=
  { m with toEthRequestHandler := some s,
           setEthRequestHandlerCalls := m.setEthRequestHandlerCalls + 1 }

/-- Modelled from the spec: a freshly created Network Manager has no consumer
route installed for either message category. -/
def NetworkManager.fresh (C : Type) (h : NetworkHandle) : NetworkManager C :=
  ⟨h, none, none, 0, 0⟩

/-- From `builder.rs`: "We set the max channel capacity of the
EthRequestHandler to 256"; 256 requests with malicious 10MB body requests is
2.6GB which can be absorbed by the node. -/
def ETH_REQUEST_CHANNEL_CAPACITY : Nat := 256

/-- Modelled from the spec: the Transactions Manager is "Constructed from: a
Network Handle, a Transaction Pool handle, and the unbounded receiver of
inbound peer transaction messages"; `new` stores exactly those three. -/
structure TransactionsManager (Pool : Type) where
  networkHandle : NetworkHandle
  pool : Pool
  fromNetwork : Receiver

/-- Constructor of the transactions manager, storing its three arguments. -/
def TransactionsManager.new {Pool : Type} (h : NetworkHandle) (pool : Pool)
    (rx : Receiver) : TransactionsManager Pool :=
  ⟨h, pool, rx⟩

/-- Modelled from the spec: the Eth Request Handler is "Constructed from: the
Block/State Client, the Peers Handle, and a *bounded* receiver with a fixed
capacity"; `new` stores exactly those three. -/
structure EthRequestHandler (Client : Type) where
  client : Client
  peers : PeersHandle
  incoming : Receiver

/-- Constructor of the eth request handler, storing its three arguments. -/
def EthRequestHandler.new {Client : Type} (client : Client) (peers : PeersHandle)
    (rx : Receiver) : EthRequestHandler Client :=
  ⟨client, peers, rx⟩

/-- From `builder.rs`: the staged builder holding the network manager and the
two component slots `transactions` and `request_handler`, whose types advance
as wiring steps run. -/
structure NetworkBuilder (C Tx Eth : Type) where
  network : NetworkManager C
  transactions : Tx
  request_handler : Eth

/-- A fresh builder: the network manager with both component slots still
unfilled (unit type state). -/
def NetworkBuilder.fresh (C : Type) (h : NetworkHandle) : NetworkBuilder C Unit Unit :=
  ⟨NetworkManager.fresh C h, (), ()⟩

/-- From `builder.rs`: `split` consumes the type and returns all fields. -/
def NetworkBuilder.split {C Tx Eth : Type} (b : NetworkBuilder C Tx Eth) :
    NetworkManager C × Tx × Eth :=
  (b.network, b.transactions, b.request_handler)

/-- From `builder.rs`: `handle` returns a clone of the handle to the network. -/
def NetworkBuilder.handle {C Tx Eth : Type} (b : NetworkBuilder C Tx Eth) : NetworkHandle :=
  b.network.handle.clone

/-- From `builder.rs`: `split_with_handle` consumes the type and returns all
fields and also a clone of the network handle. -/
def NetworkBuilder.split_with_handle {C Tx Eth : Type} (b : NetworkBuilder C Tx Eth) :
    NetworkHandle × NetworkManager C × Tx × Eth :=
  (b.network.handle.clone, b.network, b.transactions, b.request_handler)

/-- From `builder.rs`: `NetworkBuilder::transactions(pool)` creates a new
`TransactionsManager` and wires it to the network: it allocates an unbounded
channel, installs the sender via `set_transactions`, clones the manager's
handle, and builds the transactions manager from the handle, the pool and the
receiver. Named `wireTransactions` here because the source name is taken by
the slot projection; the fresh-id counter for channel allocation is threaded
explicitly. -/
def NetworkBuilder.wireTransactions {C Tx Eth Pool : Type} (b : NetworkBuilder C Tx Eth)
    (pool : Pool) (fresh : Nat) :
    NetworkBuilder C (TransactionsManager Pool) Eth × Nat :=
  let alloc := mpsc.unbounded_channel fresh
  let network := b.network.set_transactions alloc.1.1
  let h := network.handle.clone
  let txm := TransactionsManager.new h pool alloc.1.2
  ({ network := network, transactions := txm, request_handler := b.request_handler }, alloc.2)

/-- From `builder.rs`: `NetworkBuilder::request_handler(client)` creates a new
`EthRequestHandler` and wires it to the network: it allocates a bounded
channel of capacity `ETH_REQUEST_CHANNEL_CAPACITY`, installs the sender via
`set_eth_request_handler`, clones the peers handle from the manager's handle,
and builds the request handler from the client, the peers handle and the
receiver. Named `wireRequestHandler` here because the source name is taken by
the slot projection. -/
def NetworkBuilder.wireRequestHandler {C Tx Eth Client : Type} (b : NetworkBuilder C Tx Eth)
    (client : Client) (fresh : Nat) :
    NetworkBuilder C Tx (EthRequestHandler Client) × Nat :=
  let alloc := mpsc.channel ETH_REQUEST_CHANNEL_CAPACITY fresh
  let network := b.network.set_eth_request_handler alloc.1.1
  let peers := network.handle.peers_handle.clone
  let reqh := EthRequestHandler.new client peers alloc.1.2
  ({ network := network, transactions := b.transactions, request_handler := reqh }, alloc.2)

/-- C1: request_handler(client) creates the inbound data-request channel as a
bounded channel of capacity exactly 256, equal to
`ETH_REQUEST_CHANNEL_CAPACITY`, for every builder state, client and
allocation counter: the handler's receiver and the installed sender both
carry capacity `bounded 256`. -/
theorem request_handler_channel_bounded_256 :
    ETH_REQUEST_CHANNEL_CAPACITY = 256 ∧
    ∀ (C Tx Eth Client : Type) (b : NetworkBuilder C Tx Eth) (client : Client) (f : Nat),
      (b.wireRequestHandler client f).1.request_handler.incoming.chan.capacity
          = ChannelCapacity.bounded 256 ∧
      ∃ s, (b.wireRequestHandler client f).1.network.toEthRequestHandler = some s ∧
        s.chan.capacity = ChannelCapacity.bounded 256 :=
  ⟨rfl, fun _ _ _ _ _ _ _ => ⟨rfl, ⟨_, rfl, rfl⟩⟩⟩

/-- C2: transactions(pool) creates the inbound peer-transaction channel as an
unbounded channel, for every builder state, pool and allocation counter: the
transactions manager's receiver and the installed sender both carry the
unbounded capacity discipline. -/
theorem transactions_channel_unbounded :
    ∀ (C Tx Eth Pool : Type) (b : NetworkBuilder C Tx Eth) (pool : Pool) (f : Nat),
      (b.wireTransactions pool f).1.transactions.fromNetwork.chan.capacity
          = ChannelCapacity.unbounded ∧
      ∃ s, (b.wireTransactions pool f).1.network.toTransactions = some s ∧
        s.chan.capacity = ChannelCapacity.unbounded :=
  fun _ _ _ _ _ _ _ => ⟨rfl, ⟨_, rfl, rfl⟩⟩

/-- One builder wiring step, abstracted to its effect on the network manager:
which message category gets wired. -/
inductive BuildStep where
  | wireTransactions
  | wireRequestHandler

/-- The update a wiring step performs on the network manager and the
allocation counter: exactly the manager update done by
`NetworkBuilder.wireTransactions` respectively
`NetworkBuilder.wireRequestHandler`. -/
def applyStep {C : Type} (st : NetworkManager C × Nat) (s : BuildStep) :
    NetworkManager C × Nat :=
  match s with
  | BuildStep.wireTransactions =>
      let alloc := mpsc.unbounded_channel st.2
      (st.1.set_transactions alloc.1.1, alloc.2)
  | BuildStep.wireRequestHandler =>
      let alloc := mpsc.channel ETH_REQUEST_CHANNEL_CAPACITY st.2
      (st.1.set_eth_request_handler alloc.1.1, alloc.2)

/-- Running a sequence of builder wiring steps over the network manager. -/
def runSteps {C : Type} (st : NetworkManager C × Nat) (steps : List BuildStep) :
    NetworkManager C × Nat :=
  steps.foldl applyStep st

/-- Number of active transaction-category senders held by the manager. -/
def NetworkManager.activeTransactionSenders {C : Type} (m : NetworkManager C) : Nat :=
  m.toTransactions.toList.length

/-- Number of active request-category senders held by the manager. -/
def NetworkManager.activeEthRequestSenders {C : Type} (m : NetworkManager C) : Nat :=
  m.toEthRequestHandler.toList.length

/-- Number of transaction-wiring steps in a step sequence. -/
def countTx : List BuildStep → Nat
  | [] => 0
  | BuildStep.wireTransactions :: rest => countTx rest + 1
  | BuildStep.wireRequestHandler :: rest => countTx rest

/-- Number of request-wiring steps in a step sequence. -/
def countReq : List BuildStep → Nat
  | [] => 0
  | BuildStep.wireTransactions :: rest => countReq rest
  | BuildStep.wireRequestHandler :: rest => countReq rest + 1

/-- Running a step sequence performs one `set_transactions` call per
transaction-wiring step. -/
theorem runSteps_transactions_calls {C : Type} :
    ∀ (steps : List BuildStep) (st : NetworkManager C × Nat),
    (runSteps st steps).1.setTransactionsCalls = st.1.setTransactionsCalls + countTx steps := by
  intro steps
  induction steps with
  | nil => intro st; simp [runSteps, countTx]
  | cons s rest ih =>
    intro st
    have h := ih (applyStep st s)
    cases s with
    | wireTransactions =>
      simpa [runSteps, applyStep, mpsc.unbounded_channel,
        NetworkManager.set_transactions, countTx, Nat.add_assoc, Nat.add_comm,
        Nat.add_left_comm] using h
    | wireRequestHandler =>
      simpa [runSteps, applyStep, mpsc.channel,
        NetworkManager.set_eth_request_handler, countTx] using h

/-- Running a step sequence performs one `set_eth_request_handler` call per
request-wiring step. -/
theorem runSteps_eth_request_calls {C : Type} :
    ∀ (steps : List BuildStep) (st : NetworkManager C × Nat),
    (runSteps st steps).1.setEthRequestHandlerCalls
      = st.1.setEthRequestHandlerCalls + countReq steps := by
  intro steps
  induction steps with
  | nil => intro st; simp [runSteps, countReq]
  | cons s rest ih =>
    intro st
    have h := ih (applyStep st s)
    cases s with
    | wireTransactions =>
      simpa [runSteps, applyStep, mpsc.unbounded_channel,
        NetworkManager.set_transactions, countReq] using h
    | wireRequestHandler =>
      simpa [runSteps, applyStep, mpsc.channel,
        NetworkManager.set_eth_request_handler, countReq, Nat.add_assoc,
        Nat.add_comm, Nat.add_left_comm] using h

/-- Every network manager state holds at most one transaction sender: the
route is a single optional slot. -/
theorem activeTransactionSenders_le_one {C : Type} (m : NetworkManager C) :
    m.activeTransactionSenders ≤ 1 := by
  cases h : m.toTransactions <;>
    simp [NetworkManager.activeTransactionSenders, h]

/-- Every network manager state holds at most one request sender. -/
theorem activeEthRequestSenders_le_one {C : Type} (m : NetworkManager C) :
    m.activeEthRequestSenders ≤ 1 := by
  cases h : m.toEthRequestHandler <;>
    simp [NetworkManager.activeEthRequestSenders, h]

/-- C3: each invocation of `transactions(...)` or `request_handler(...)`
installs exactly one sender for its own message category — one
`set_transactions` respectively `set_eth_request_handler` call per
invocation, none for the other category, and the manager update is exactly
the corresponding abstract wiring step — and after any sequence of wiring
steps on a fresh manager the call counts equal the step counts and the
manager holds at most one active sender per message category. -/
theorem one_sender_per_message_category :
    (∀ (C Tx Eth Pool : Type) (b : NetworkBuilder C Tx Eth) (pool : Pool) (f : Nat),
      (b.wireTransactions pool f).1.network.setTransactionsCalls
          = b.network.setTransactionsCalls + 1 ∧
      (b.wireTransactions pool f).1.network.setEthRequestHandlerCalls
          = b.network.setEthRequestHandlerCalls ∧
      ((b.wireTransactions pool f).1.network, (b.wireTransactions pool f).2)
          = applyStep (b.network, f) BuildStep.wireTransactions) ∧
    (∀ (C Tx Eth Client : Type) (b : NetworkBuilder C Tx Eth) (client : Client) (f : Nat),
      (b.wireRequestHandler client f).1.network.setEthRequestHandlerCalls
          = b.network.setEthRequestHandlerCalls + 1 ∧
      (b.wireRequestHandler client f).1.network.setTransactionsCalls
          = b.network.setTransactionsCalls ∧
      ((b.wireRequestHandler client f).1.network, (b.wireRequestHandler client f).2)
          = applyStep (b.network, f) BuildStep.wireRequestHandler) ∧
    (∀ (C : Type) (h : NetworkHandle) (f : Nat) (steps : List BuildStep),
      (runSteps (NetworkManager.fresh C h, f) steps).1.setTransactionsCalls
          = countTx steps ∧
      (runSteps (NetworkManager.fresh C h, f) steps).1.setEthRequestHandlerCalls
          = countReq steps ∧
      (runSteps (NetworkManager.fresh C h, f) steps).1.activeTransactionSenders ≤ 1 ∧
      (runSteps (NetworkManager.fresh C h, f) steps).1.activeEthRequestSenders ≤ 1) := by
  refine ⟨fun C Tx Eth Pool b pool f => ⟨rfl, rfl, rfl⟩,
    fun C Tx Eth Client b client f => ⟨rfl, rfl, rfl⟩,
    fun C h f steps => ⟨?_, ?_, ?_, ?_⟩⟩
  · simpa [NetworkManager.fresh] using
      runSteps_transactions_calls steps (NetworkManager.fresh C h, f)
  · simpa [NetworkManager.fresh] using
      runSteps_eth_request_calls steps (NetworkManager.fresh C h, f)
  · exact activeTransactionSenders_le_one _
  · exact activeEthRequestSenders_le_one _

/-- C4: `transactions(pool)` constructs the `TransactionsManager` from
exactly a clone of the manager's handle, the given pool, and the receiver end
of the same unbounded channel whose sender end is installed via
`set_transactions`. -/
theorem transactions_manager_wiring :
    ∀ (C Tx Eth Pool : Type) (b : NetworkBuilder C Tx Eth) (pool : Pool) (f : Nat),
      (b.wireTransactions pool f).1.transactions.networkHandle
          = (b.wireTransactions pool f).1.network.handle.clone ∧
      (b.wireTransactions pool f).1.transactions.networkHandle = b.network.handle ∧
      (b.wireTransactions pool f).1.transactions.pool = pool ∧
      ∃ s, (b.wireTransactions pool f).1.network.toTransactions = some s ∧
        s.chan = (b.wireTransactions pool f).1.transactions.fromNetwork.chan ∧
        s.chan.capacity = ChannelCapacity.unbounded :=
  fun _ _ _ _ _ _ _ => ⟨rfl, rfl, rfl, ⟨_, rfl, rfl, rfl⟩⟩

/-- C5: `request_handler(client)` constructs the `EthRequestHandler` from
exactly the given client, the peers handle obtained from the manager's own
handle (shared, not fresh), and the receiver end of the same bounded channel
whose sender end is installed via `set_eth_request_handler`. -/
theorem eth_request_handler_wiring :
    ∀ (C Tx Eth Client : Type) (b : NetworkBuilder C Tx Eth) (client : Client) (f : Nat),
      (b.wireRequestHandler client f).1.request_handler.client = client ∧
      (b.wireRequestHandler client f).1.request_handler.peers
          = (b.wireRequestHandler client f).1.network.handle.peers_handle ∧
      (b.wireRequestHandler client f).1.request_handler.peers = b.network.handle.peers ∧
      ∃ s, (b.wireRequestHandler client f).1.network.toEthRequestHandler = some s ∧
        s.chan = (b.wireRequestHandler client f).1.request_handler.incoming.chan ∧
        s.chan.capacity = ChannelCapacity.bounded ETH_REQUEST_CHANNEL_CAPACITY :=
  fun _ _ _ _ _ _ _ => ⟨rfl, rfl, rfl, ⟨_, rfl, rfl, rfl⟩⟩

/-- C6: order independence on a fresh builder. Wiring transactions then the
request handler yields the same fully wired set as the reverse order: the
same manager handle (equal to the fresh handle at every stage), the same call
counts, the same pool, client, transaction-manager handle and peers handle,
the same channel capacities on both slots, correct sender/receiver pairing in
both orders, and the same number of channel allocations consumed. Equality is
up to the allocation identity of the freshly created channels, which two
distinct executions never share. -/
theorem builder_order_independent :
    ∀ (C Pool Client : Type) (h : NetworkHandle) (pool : Pool) (client : Client) (f : Nat),
      let s1 := (NetworkBuilder.fresh C h).wireTransactions pool f
      let r1 := (s1.1.wireRequestHandler client s1.2).1
      let n1 := (s1.1.wireRequestHandler client s1.2).2
      let s2 := (NetworkBuilder.fresh C h).wireRequestHandler client f
      let r2 := (s2.1.wireTransactions pool s2.2).1
      let n2 := (s2.1.wireTransactions pool s2.2).2
      (s1.1.handle = h ∧ s2.1.handle = h ∧ r1.handle = h ∧ r2.handle = h) ∧
      (r1.network.handle = r2.network.handle ∧
       r1.network.setTransactionsCalls = r2.network.setTransactionsCalls ∧
       r1.network.setEthRequestHandlerCalls = r2.network.setEthRequestHandlerCalls ∧
       r1.transactions.pool = r2.transactions.pool ∧
       r1.transactions.networkHandle = r2.transactions.networkHandle ∧
       r1.transactions.fromNetwork.chan.capacity = r2.transactions.fromNetwork.chan.capacity ∧
       r1.request_handler.client = r2.request_handler.client ∧
       r1.request_handler.peers = r2.request_handler.peers ∧
       r1.request_handler.incoming.chan.capacity = r2.request_handler.incoming.chan.capacity ∧
       n1 = n2) ∧
      ((∃ s, r1.network.toTransactions = some s ∧
          s.chan = r1.transactions.fromNetwork.chan) ∧
       (∃ s, r2.network.toTransactions = some s ∧
          s.chan = r2.transactions.fromNetwork.chan) ∧
       (∃ s, r1.network.toEthRequestHandler = some s ∧
          s.chan = r1.request_handler.incoming.chan) ∧
       (∃ s, r2.network.toEthRequestHandler = some s ∧
          s.chan = r2.request_handler.incoming.chan)) :=
  fun _ _ _ _ _ _ _ =>
    ⟨⟨rfl, rfl, rfl, rfl⟩, ⟨rfl, rfl, rfl, rfl, rfl, rfl, rfl, rfl, rfl, rfl⟩,
     ⟨_, rfl, rfl⟩, ⟨_, rfl, rfl⟩, ⟨_, rfl, rfl⟩, ⟨_, rfl, rfl⟩⟩


/-- C7: `handle()` at any builder stage returns a clone of the handle of the
same underlying manager: before wiring, after wiring transactions, and after
wiring the request handler it is the same handle, and cloning it again yields
the same reference (all clones observe the same underlying manager). -/
theorem handle_stable_across_stages :
    ∀ (C Tx Eth Pool Client : Type) (b : NetworkBuilder C Tx Eth) (pool : Pool)
      (client : Client) (f g : Nat),
      b.handle = b.network.handle ∧
      (b.wireTransactions pool f).1.handle = b.handle ∧
      (b.wireRequestHandler client g).1.handle = b.handle ∧
      b.handle.clone = b.handle ∧
      b.handle.managerId = b.network.handle.managerId :=
  fun _ _ _ _ _ _ _ _ _ _ => ⟨rfl, rfl, rfl, rfl, rfl⟩

/-- C8: frame property of the wiring steps. `transactions(pool)` passes the
request-handler slot through unchanged and `request_handler(client)` passes
the transactions slot through unchanged, so a populated slot is never lost by
the other step. -/
theorem wiring_steps_frame :
    ∀ (C Tx Eth Pool Client : Type) (b : NetworkBuilder C Tx Eth) (pool : Pool)
      (client : Client) (f g : Nat),
      (b.wireTransactions pool f).1.request_handler = b.request_handler ∧
      (b.wireRequestHandler client g).1.transactions = b.transactions :=
  fun _ _ _ _ _ _ _ _ _ _ => ⟨rfl, rfl⟩

/-- C9: `split()` returns exactly the builder's three components — the
network manager, the transactions slot and the request-handler slot —
unchanged; it is a pure projection with no other effect. -/
theorem split_returns_components :
    ∀ (C Tx Eth : Type) (b : NetworkBuilder C Tx Eth),
      b.split = (b.network, b.transactions, b.request_handler) :=
  fun _ _ _ _ => rfl

/-- Composition written the way the claim describes it: take `handle()`
first, then `split()`. -/
def NetworkBuilder.handleThenSplit {C Tx Eth : Type} (b : NetworkBuilder C Tx Eth) :
    NetworkHandle × NetworkManager C × Tx × Eth :=
  (b.handle, b.split)

/-- C10: `split_with_handle()` is equivalent to taking `handle()` and then
`split()`: it returns the same three components as `split()` together with a
handle that is a clone of the returned manager's own handle. -/
theorem split_with_handle_refines_handle_then_split :
    ∀ (C Tx Eth : Type) (b : NetworkBuilder C Tx Eth),
      b.split_with_handle = b.handleThenSplit ∧
      b.split_with_handle.1 = b.split_with_handle.2.1.handle.clone ∧
      b.split_with_handle.2 = b.split :=
  fun _ _ _ _ => ⟨rfl, rfl, rfl⟩
